import Mathlib

/-!
Shallow embedding of `src/dist/github_script.py` (github-python-script).

The program is a GitHub-Actions scripting shim: a `Core` logging/output
facade, an execution `Context` built from environment variables and the
event-payload file, a PyGithub wrapper with retry configuration and a
pagination helper, and `run_script`, which executes user-supplied script
text against a namespace and returns the `__result__` binding.

Modelling conventions:
- the process environment is a total map `Env := String → Option String`
  (`Option.none` = variable unset), mirroring `os.getenv`;
- Python values that flow through the code (JSON payload contents,
  namespace bindings) are the inductive `PyVal`; opaque objects such as
  modules or client instances are `PyVal.obj tag`; numeric JSON values
  are restricted to integers, which is all the code manipulates;
- Python truthiness (`if x:`, `a or b`) is the Boolean `truthy`;
- fallible Python code (exceptions) is `Except String`, the string being
  the exception rendered as text;
- file contents are total maps from path to contents; `os.path.exists`
  is a Boolean map carrying the invariant that the empty path never
  exists, which is how `os.path.exists ""` behaves.
-/

/-- The process environment, as read by `os.getenv`. -/
def Env : Type := String → Option String

/-- `os.getenv(key, default)`. -/
def getenvD (env : Env) (key default : String) : String :=
  (env key).getD default

/-- Python values manipulated by the program: `None`, booleans, integers,
strings, lists, dicts with string keys, and opaque objects (modules,
client instances) identified by a tag. -/
inductive PyVal : Type where
  | none : PyVal
  | bool (b : Bool) : PyVal
  | int (n : Int) : PyVal
  | str (s : String) : PyVal
  | list (xs : List PyVal) : PyVal
  | dict (kvs : List (String × PyVal)) : PyVal
  | obj (tag : String) : PyVal

/-- First-match lookup in an association list, i.e. `d[k]` / `d.get(k)`
on a Python dict (keys are unique in a real dict, so first match is the
match). -/
def dictLookup : List (String × PyVal) → String → Option PyVal
  | [], _ => Option.none
  | (k, v) :: rest, key => if k = key then some v else dictLookup rest key

/-- Python truthiness of a `PyVal` (`bool(x)`). -/
def truthy : PyVal → Bool
  | PyVal.none => false
  | PyVal.bool b => b
  | PyVal.int n => n != 0
  | PyVal.str s => s != ""
  | PyVal.list xs => !xs.isEmpty
  | PyVal.dict kvs => !kvs.isEmpty
  | PyVal.obj _ => true

/-- `v.get(key, default)` where `v` must be a dict: returns the entry or
the default; raises `AttributeError` when `v` is not a dict. -/
def pyDictGetD (v : PyVal) (key : String) (default : PyVal) :
    Except String PyVal :=
  match v with
  | PyVal.dict kvs => Except.ok ((dictLookup kvs key).getD default)
  | _ => Except.error "AttributeError: object has no attribute get"

namespace Core

/-- The environment-variable name read by `Core.get_input`:
`"INPUT_" + name.upper().replace('-', '_')`. -/
def inputEnvName (name : String) : String :=
  "INPUT_" ++ String.mk ((name.data.map Char.toUpper).map
    (fun c => if c = '-' then '_' else c))

/-- `Core.get_input(name, required)`: resolves `val` by `os.getenv` of
`inputEnvName name` with default `""`; raises `ValueError` when
`required and not val`; returns `val` otherwise. -/
def get_input (env : Env) (name : String) (required : Bool) :
    Except String String :=
  let val := getenvD env (inputEnvName name) ""
  if required && (val == "") then
    Except.error ("ValueError: Input required and not supplied: " ++ name)
  else
    Except.ok val

/-- A file system restricted to what `open(path, "a")` needs: the current
textual contents of every path. -/
def Files : Type := String → String

/-- Appending `text` to the file at `path` (`open(path, "a")` followed by
`f.write(text)`). -/
def fileAppend (fs : Files) (path text : String) : Files :=
  fun p => if p = path then fs p ++ text else fs p

/-- `Core.set_output(name, value)`: reads `GITHUB_OUTPUT`; when that
value is truthy (set and nonempty) appends the line `name=value` plus a
newline to the named file; otherwise leaves the file system untouched. -/
def set_output (env : Env) (fs : Files) (name value : String) : Files :=
  match env "GITHUB_OUTPUT" with
  | Option.none => fs
  | some output_file =>
      if output_file == "" then fs
      else fileAppend fs output_file (name ++ "=" ++ value ++ "\n")

/-- `Core.export_variable(name, value)`: same append contract as
`set_output`, with target file named by `GITHUB_ENV`. -/
def export_variable (env : Env) (fs : Files) (name value : String) :
    Files :=
  match env "GITHUB_ENV" with
  | Option.none => fs
  | some env_file =>
      if env_file == "" then fs
      else fileAppend fs env_file (name ++ "=" ++ value ++ "\n")

end Core

/-- What `Context._load_payload` needs of the file system: whether a path
exists (`os.path.exists`) and, for an existing file, what `json.load` of
its contents yields (`Except.error` = `JSONDecodeError` / `OSError`).
`os.path.exists("")` is `False` in Python, recorded as an invariant. -/
structure FileSys : Type where
  pathExists : String → Bool
  jsonLoad : String → Except String PyVal
  empty_path_not_exists : pathExists "" = false

/-- `Context._load_payload`: reads `GITHUB_EVENT_PATH`; when it is set,
truthy (nonempty) and the path exists, returns `json.load` of the file;
otherwise returns the empty dict. -/
def load_payload (env : Env) (fs : FileSys) : Except String PyVal :=
  match env "GITHUB_EVENT_PATH" with
  | some event_path =>
      if (event_path != "") && fs.pathExists event_path then
        fs.jsonLoad event_path
      else Except.ok (PyVal.dict [])
  | Option.none => Except.ok (PyVal.dict [])

/-- The fields stored by `Context.__init__`. -/
structure Context : Type where
  payload : PyVal
  event_name : String
  sha : String
  ref : String
  workflow : String
  action : String
  actor : String
  job : String
  run_number : Int
  run_id : Int
  api_url : String
  server_url : String
  graphql_url : String

/-- `s.split("/", 1)` restricted to the two-element unpacking the code
performs: splits at the first `'/'`; `Option.none` means no `'/'` was
present, in which case `owner, repo = ...` raises `ValueError`. -/
def splitSlash1 : List Char → Option (List Char × List Char)
  | [] => Option.none
  | c :: cs =>
      if c = '/' then some ([], cs)
      else
        match splitSlash1 cs with
        | some (a, b) => some (c :: a, b)
        | Option.none => Option.none

/-- The owner/repo dict returned by `Context.repo`. -/
structure RepoId : Type where
  owner : String
  repo : String
deriving DecidableEq

/-- `Context.repo` (a property: re-reads the environment on each access):
`repository = os.getenv("GITHUB_REPOSITORY", "/")`, then
`owner, repo = repository.split("/", 1)`. -/
def Context.repo (env : Env) : Except String RepoId :=
  let repository := getenvD env "GITHUB_REPOSITORY" "/"
  match splitSlash1 repository.data with
  | some (o, r) => Except.ok ⟨String.mk o, String.mk r⟩
  | Option.none =>
      Except.error "ValueError: not enough values to unpack (expected 2, got 1)"

/-- The number component of `Context.issue`: the Python `or` chain that
takes the "number" entry of the payload's "issue" dict (defaulting the
missing dict to empty and the missing entry to `None`), else the
"number" entry of its "pull_request" dict, else the payload's top-level
"number" entry with default `0` — `or` short-circuits on truthiness. -/
def issueNumber (payload : PyVal) : Except String PyVal := do
  let iv ← pyDictGetD payload "issue" (PyVal.dict [])
  let a ← pyDictGetD iv "number" PyVal.none
  if truthy a then
    Except.ok a
  else do
    let pv ← pyDictGetD payload "pull_request" (PyVal.dict [])
    let b ← pyDictGetD pv "number" PyVal.none
    if truthy b then
      Except.ok b
    else
      pyDictGetD payload "number" (PyVal.int 0)

/-- The owner/repo/number dict returned by `Context.issue`. -/
structure IssueId : Type where
  owner : String
  repo : String
  number : PyVal

/-- `Context.issue` (a property): owner and repo from `self.repo` (which
re-reads the environment), number from the truthiness-`or` chain over
`self.payload`. -/
def Context.issue (env : Env) (ctx : Context) : Except String IssueId := do
  let rid ← Context.repo env
  let n ← issueNumber ctx.payload
  Except.ok ⟨rid.owner, rid.repo, n⟩

/-- The `GithubRetry` configuration object built in
`GitHubWrapper.__init__`. -/
structure GithubRetry : Type where
  total : Int
  backoff_factor : Int
  status_forcelist : List Nat
deriving DecidableEq

namespace GitHubWrapper

/-- The exempt-status-list defaulting in `GitHubWrapper.__init__`:
`retry_exempt_status_codes = retry_exempt_status_codes or
[400, 401, 403, 404, 422]` — Python `or`, so both `None` and the empty
list fall back to the default. -/
def effective_exempt (retry_exempt_status_codes : Option (List Nat)) :
    List Nat :=
  match retry_exempt_status_codes with
  | some l => if l.isEmpty then [400, 401, 403, 404, 422] else l
  | Option.none => [400, 401, 403, 404, 422]

/-- The retry configuration built in `GitHubWrapper.__init__`: when
`retries > 0`, a `GithubRetry` with `total=retries`, `backoff_factor=1`
and `status_forcelist = [x for x in range(400, 600) if x not in
retry_exempt_status_codes]`; otherwise `None`. -/
def init_retry_config (retries : Int)
    (retry_exempt_status_codes : Option (List Nat)) : Option GithubRetry :=
  let exempt := effective_exempt retry_exempt_status_codes
  if retries > 0 then
    some ⟨retries, 1, (List.range' 400 200).filter (fun x => x ∉ exempt)⟩
  else
    Option.none

end GitHubWrapper

/-- What `paginate` observes of the object a method returns: whether it
has a `totalCount` attribute (`hasattr(results, 'totalCount')`), and the
elements `for item in results` yields in order (`Option.none` = not
iterable, so the loop raises `TypeError`). -/
inductive ApiObj : Type where
  | mk (hasTotalCount : Bool) (iter : Option (List ApiObj)) : ApiObj

/-- Whether the object exposes a `totalCount` attribute. -/
def ApiObj.hasTotalCount : ApiObj → Bool
  | ApiObj.mk h _ => h

/-- The iteration sequence of the object, when it is iterable. -/
def ApiObj.iter : ApiObj → Option (List ApiObj)
  | ApiObj.mk _ i => i

/-- `GitHubWrapper.paginate(method, *args)`: calls `method(*args)`; when
the result has a `totalCount` attribute, iterates it and collects every
item into a list; otherwise returns the one-element list holding the
result itself. -/
def paginate {α : Type} (method : α → ApiObj) (args : α) :
    Except String (List ApiObj) :=
  let results := method args
  if results.hasTotalCount then
    match results.iter with
    | some items => Except.ok items
    | Option.none => Except.error "TypeError: object is not iterable"
  else
    Except.ok [results]

/-- A script namespace: the `exec_globals` dict of `run_script`. -/
def Namespace : Type := List (String × PyVal)

/-- Dict update: overwrite the entry for `key` in place, or append a new
entry, as assignment into `exec_globals` does. -/
def nsSet : Namespace → String → PyVal → Namespace
  | [], key, v => [(key, v)]
  | (k, w) :: rest, key, v =>
      if k = key then (k, v) :: rest else (k, w) :: nsSet rest key v

/-- Expressions of the executable fragment of Python needed by the
scripts this development runs: integer literals, names, and `+`. -/
inductive Expr : Type where
  | lit (n : Int) : Expr
  | var (x : String) : Expr
  | add (a b : Expr) : Expr

/-- Expression evaluation against a namespace, with Python's `NameError`
and `TypeError` as errors. -/
def evalExpr (ns : Namespace) : Expr → Except String PyVal
  | Expr.lit n => Except.ok (PyVal.int n)
  | Expr.var x =>
      match dictLookup ns x with
      | some v => Except.ok v
      | Option.none =>
          Except.error ("NameError: name " ++ x ++ " is not defined")
  | Expr.add a b => do
      let va ← evalExpr ns a
      let vb ← evalExpr ns b
      match va, vb with
      | PyVal.int m, PyVal.int n => Except.ok (PyVal.int (m + n))
      | _, _ => Except.error "TypeError: unsupported operand type for +"

/-- Statements of the executable fragment: assignment to a name. -/
inductive Stmt : Type where
  | assign (x : String) (e : Expr) : Stmt

/-- Executing one statement against the namespace. -/
def execStmt (ns : Namespace) : Stmt → Except String Namespace
  | Stmt.assign x e => do
      let v ← evalExpr ns e
      Except.ok (nsSet ns x v)

/-- Executing a statement sequence, as `exec` runs a module body. -/
def execStmts : List Stmt → Namespace → Except String Namespace
  | [], ns => Except.ok ns
  | s :: rest, ns => do
      let ns2 ← execStmt ns s
      execStmts rest ns2

/-- The `exec_globals` dict `run_script` builds: `github`, `context` and
`core` bound to the three passed objects, plus the `os`, `sys` and
`json` modules. -/
def exec_globals (github context core : PyVal) : Namespace :=
  [("github", github), ("context", context), ("core", core),
   ("os", PyVal.obj "module os"), ("sys", PyVal.obj "module sys"),
   ("json", PyVal.obj "module json")]

/-- `run_script(script, github, context, core)`: `exec`s the script
against `exec_globals` (a script is its meaning: a fallible namespace
transformer; script exceptions propagate) and then returns
`exec_globals.get('__result__')` — the bound value, or `None` when the
script never set `__result__`. -/
def run_script (script : Namespace → Except String Namespace)
    (github context core : PyVal) : Except String PyVal := do
  let final ← script (exec_globals github context core)
  Except.ok ((dictLookup final "__result__").getD PyVal.none)

/-! Concrete instances used to evaluate the definitions at specific
inputs. -/

/-- An environment with every variable unset. -/
def envEmpty : Env := fun _ => Option.none

/-- A payload whose issue number is the integer `0` while a pull-request
number `5` is present alongside it. -/
def payload0 : PyVal :=
  PyVal.dict [("issue", PyVal.dict [("number", PyVal.int 0)]),
              ("pull_request", PyVal.dict [("number", PyVal.int 5)])]

/-- A context as `Context.__init__` builds it in an empty environment,
except that its payload is `payload0`. -/
def ctx0 : Context :=
  { payload := payload0, event_name := "", sha := "", ref := "",
    workflow := "", action := "", actor := "", job := "",
    run_number := 0, run_id := 0, api_url := "https://api.github.com",
    server_url := "https://github.com",
    graphql_url := "https://api.github.com/graphql" }

/-- A context whose payload has issue number `42` next to a
pull-request number `5` and a top-level number `9`. -/
def ctxW : Context :=
  { ctx0 with payload :=
      PyVal.dict [("issue", PyVal.dict [("number", PyVal.int 42)]),
                  ("pull_request", PyVal.dict [("number", PyVal.int 5)]),
                  ("number", PyVal.int 9)] }

/-- An environment where only `GITHUB_REPOSITORY` is set, to
`octo/my/repo`. -/
def envRepo : Env :=
  fun k => if k = "GITHUB_REPOSITORY" then some "octo/my/repo"
           else Option.none

/-- An environment where only `INPUT_MY_NAME` is set, to `hello`. -/
def envIn : Env :=
  fun k => if k = "INPUT_MY_NAME" then some "hello" else Option.none

/-- An environment where `GITHUB_OUTPUT` is set to the empty string. -/
def envOutEmpty : Env :=
  fun k => if k = "GITHUB_OUTPUT" then some "" else Option.none

/-- An environment with `GITHUB_OUTPUT` and `GITHUB_ENV` set to two
distinct file paths. -/
def envOut : Env :=
  fun k =>
    if k = "GITHUB_OUTPUT" then some "/out.txt"
    else if k = "GITHUB_ENV" then some "/env.txt"
    else Option.none

/-- A file system in which every file currently holds one prior line. -/
def fsPrior : Core.Files := fun _ => "prior=1\n"

/-- An empty file system: every file holds the empty string. -/
def fs0 : Core.Files := fun _ => ""

/-- A file system where only `/e.json` exists, holding a document with a
single top-level number `7`. -/
def fsA : FileSys :=
  { pathExists := fun p => p == "/e.json"
    jsonLoad := fun _ => Except.ok (PyVal.dict [("number", PyVal.int 7)])
    empty_path_not_exists := rfl }

/-- A file system with no existing paths. -/
def fsB : FileSys :=
  { pathExists := fun _ => false
    jsonLoad := fun _ => Except.ok PyVal.none
    empty_path_not_exists := rfl }

/-- An environment where only `GITHUB_EVENT_PATH` is set, to
`/e.json`. -/
def envA : Env :=
  fun k => if k = "GITHUB_EVENT_PATH" then some "/e.json" else Option.none

/-- `split("/", 1)` behaviour: with no `'/'` in the owner part, the
split is at the first `'/'` and keeps the rest (further slashes
included) intact. -/
theorem splitSlash1_append (o r : List Char) (h : '/' ∉ o) :
    splitSlash1 (o ++ '/' :: r) = some (o, r) := by
  induction o with
  | nil => simp [splitSlash1]
  | cons c cs ih =>
      have hc : c ≠ '/' := fun hc => h (hc ▸ List.mem_cons_self c cs)
      have hcs : '/' ∉ cs := fun hm => h (List.mem_cons_of_mem c hm)
      have hc' : ¬(c = '/') := hc
      simp only [List.cons_append, splitSlash1, if_neg hc', List.append_eq,
        ih hcs]

/-! Claim theorems. -/

/-- Claim C3: for every repository environment string of the form
`owner/name`, `Context.repo` yields the owner/name pair obtained by
splitting exactly once on the first `/` separator; when
`GITHUB_REPOSITORY` is absent, the default string `/` is parsed into
two empty strings and is not rejected. -/
theorem Context_repo_split (env : Env) :
    (∀ o r : List Char, '/' ∉ o →
      env "GITHUB_REPOSITORY" = some (String.mk (o ++ '/' :: r)) →
      Context.repo env = Except.ok ⟨String.mk o, String.mk r⟩) ∧
    (env "GITHUB_REPOSITORY" = Option.none →
      Context.repo env = Except.ok ⟨"", ""⟩) := by
  constructor
  · intro o r ho henv
    unfold Context.repo getenvD
    rw [henv]
    simp only [Option.getD_some]
    rw [splitSlash1_append o r ho]
  · intro henv
    unfold Context.repo getenvD
    rw [henv]
    rfl

/-- Witness for `Context_repo_split`: the string `octo/my/repo` splits
into owner `octo` and repo `my/repo` (first separator only), and the
empty environment yields two empty strings. -/
theorem Context_repo_split_witness :
    Context.repo envRepo = Except.ok ⟨"octo", "my/repo"⟩ ∧
    Context.repo envEmpty = Except.ok ⟨"", ""⟩ :=
  ⟨(Context_repo_split envRepo).1 "octo".data "my/repo".data
      (by decide) rfl,
   (Context_repo_split envEmpty).2 rfl⟩

/-- Claim C4: `Core.get_input` reads the environment variable named by
`INPUT_` plus the name uppercased with dashes replaced by underscores;
it raises `ValueError` exactly when `required` is true and the resolved
value is empty or absent, and otherwise returns the exact string
value. -/
theorem get_input_required_spec (env : Env) (name : String)
    (required : Bool) :
    (required = true ∧ getenvD env (Core.inputEnvName name) "" = "" →
      Core.get_input env name required =
        Except.error ("ValueError: Input required and not supplied: " ++ name)) ∧
    (¬(required = true ∧ getenvD env (Core.inputEnvName name) "" = "") →
      Core.get_input env name required =
        Except.ok (getenvD env (Core.inputEnvName name) "")) := by
  constructor
  · rintro ⟨hr, hv⟩
    simp [Core.get_input, hr, hv]
  · intro hn
    rcases required with _ | _
    · simp [Core.get_input]
    · have hv : ¬(getenvD env (Core.inputEnvName name) "" = "") := by
        intro hv
        exact hn ⟨rfl, hv⟩
      simp [Core.get_input, hv]

/-- Witness for `get_input_required_spec`: with `INPUT_MY_NAME` set to
`hello`, a required `my-name` input resolves to `hello`; in the empty
environment the same required input raises. -/
theorem get_input_required_spec_witness :
    Core.get_input envIn "my-name" true = Except.ok "hello" ∧
    Core.get_input envEmpty "my-name" true =
      Except.error ("ValueError: Input required and not supplied: " ++ "my-name") :=
  ⟨(get_input_required_spec envIn "my-name" true).2 (by decide),
   (get_input_required_spec envEmpty "my-name" true).1 (by decide)⟩

/-- Claim C9: `Core.get_input` with `required = false` is total — it
returns the resolved string (never an error), and when the environment
variable is absent it returns the empty string rather than an
absent/None value. -/
theorem get_input_optional_total (env : Env) (name : String) :
    Core.get_input env name false =
      Except.ok (getenvD env (Core.inputEnvName name) "") ∧
    (env (Core.inputEnvName name) = Option.none →
      Core.get_input env name false = Except.ok "") := by
  constructor
  · simp [Core.get_input]
  · intro h
    simp [Core.get_input, getenvD, h]

/-- Witness for `get_input_optional_total`: in the empty environment the
optional input `my-name` yields the empty string. -/
theorem get_input_optional_total_witness :
    Core.get_input envEmpty "my-name" false = Except.ok "" :=
  (get_input_optional_total envEmpty "my-name").2 rfl

/-- Claim C8: `Context` construction reads the event-payload path from
`GITHUB_EVENT_PATH`; when the variable is set and the path exists the
payload is the parsed JSON contents of that file, and otherwise
(variable unset, or path does not exist) the payload is the empty
document. -/
theorem load_payload_spec (env : Env) (fs : FileSys) :
    (∀ p, env "GITHUB_EVENT_PATH" = some p → fs.pathExists p = true →
      load_payload env fs = fs.jsonLoad p) ∧
    (env "GITHUB_EVENT_PATH" = Option.none →
      load_payload env fs = Except.ok (PyVal.dict [])) ∧
    (∀ p, env "GITHUB_EVENT_PATH" = some p → fs.pathExists p = false →
      load_payload env fs = Except.ok (PyVal.dict [])) := by
  refine ⟨?_, ?_, ?_⟩
  · intro p henv hex
    have hp : p ≠ "" := by
      intro he
      rw [he, fs.empty_path_not_exists] at hex
      cases hex
    have hp' : (p != "") = true := bne_iff_ne.mpr hp
    unfold load_payload
    rw [henv]
    simp [hp', hex]
  · intro henv
    unfold load_payload
    rw [henv]
  · intro p henv hex
    unfold load_payload
    rw [henv]
    simp [hex]

/-- Witness for `load_payload_spec`: with `GITHUB_EVENT_PATH` pointing
at the existing file `/e.json` the payload is that file's document; in
the empty environment, and when the path does not exist, the payload is
the empty dict. -/
theorem load_payload_spec_witness :
    load_payload envA fsA = Except.ok (PyVal.dict [("number", PyVal.int 7)]) ∧
    load_payload envEmpty fsA = Except.ok (PyVal.dict []) ∧
    load_payload envA fsB = Except.ok (PyVal.dict []) :=
  ⟨(load_payload_spec envA fsA).1 "/e.json" rfl rfl,
   (load_payload_spec envEmpty fsA).2.1 rfl,
   (load_payload_spec envA fsB).2.2 "/e.json" rfl rfl⟩

/-- Claim C6: `paginate` invokes the method with the given arguments;
when the returned object exposes a `totalCount` attribute it iterates
the object and returns all elements in iteration order, and otherwise
it returns a one-element list containing exactly the returned object. -/
theorem paginate_spec {α : Type} (method : α → ApiObj) (args : α) :
    (∀ items, (method args).hasTotalCount = true →
      (method args).iter = some items →
      paginate method args = Except.ok items) ∧
    ((method args).hasTotalCount = false →
      paginate method args = Except.ok [method args]) := by
  constructor
  · intro items h1 h2
    simp [paginate, h1, h2]
  · intro h1
    simp [paginate, h1]

/-- Witness for `paginate_spec`: a paginated result with two elements is
collected element by element; a plain object is wrapped in a
one-element list. -/
theorem paginate_spec_witness :
    paginate (fun _ : Unit =>
        ApiObj.mk true (some [ApiObj.mk false Option.none,
                              ApiObj.mk true (some [])])) () =
      Except.ok [ApiObj.mk false Option.none, ApiObj.mk true (some [])] ∧
    paginate (fun _ : Unit => ApiObj.mk false Option.none) () =
      Except.ok [ApiObj.mk false Option.none] :=
  ⟨(paginate_spec (fun _ : Unit =>
        ApiObj.mk true (some [ApiObj.mk false Option.none,
                              ApiObj.mk true (some [])])) ()).1 _ rfl rfl,
   (paginate_spec (fun _ : Unit => ApiObj.mk false Option.none) ()).2 rfl⟩

/-- Claim C7 (amended): when the retry count is positive the retry
configuration has backoff factor 1 and retries every status in
[400, 600) outside the effective exempt set — the caller-supplied set
when it is nonempty, the default 400/401/403/404/422 set when the
caller supplied none or an empty list; when the retry count is 0 no
retry configuration is created. -/
theorem init_retry_config_spec (retries : Int)
    (exempt : Option (List Nat)) :
    (retries = 0 →
      GitHubWrapper.init_retry_config retries exempt = Option.none) ∧
    (∀ l, 0 < retries → exempt = some l → l ≠ [] →
      ∃ cfg, GitHubWrapper.init_retry_config retries exempt = some cfg ∧
        cfg.total = retries ∧ cfg.backoff_factor = 1 ∧
        ∀ x : Nat, x ∈ cfg.status_forcelist ↔
          (400 ≤ x ∧ x < 600 ∧ x ∉ l)) ∧
    (0 < retries → exempt = Option.none →
      ∃ cfg, GitHubWrapper.init_retry_config retries exempt = some cfg ∧
        cfg.total = retries ∧ cfg.backoff_factor = 1 ∧
        ∀ x : Nat, x ∈ cfg.status_forcelist ↔
          (400 ≤ x ∧ x < 600 ∧
           x ∉ ([400, 401, 403, 404, 422] : List Nat))) ∧
    (0 < retries → exempt = some [] →
      ∃ cfg, GitHubWrapper.init_retry_config retries exempt = some cfg ∧
        cfg.total = retries ∧ cfg.backoff_factor = 1 ∧
        ∀ x : Nat, x ∈ cfg.status_forcelist ↔
          (400 ≤ x ∧ x < 600 ∧
           x ∉ ([400, 401, 403, 404, 422] : List Nat))) := by
  refine ⟨?_, ?_, ?_, ?_⟩
  · intro h0
    simp [GitHubWrapper.init_retry_config, h0]
  · intro l hr hex hne
    have hle : l.isEmpty = false := by
      cases l with
      | nil => exact absurd rfl hne
      | cons a t => rfl
    refine ⟨⟨retries, 1,
        (List.range' 400 200).filter (fun x => x ∉ l)⟩, ?_, rfl, rfl, ?_⟩
    · simp [GitHubWrapper.init_retry_config, GitHubWrapper.effective_exempt,
        hex, hle, hr]
    · intro x
      simp [List.mem_filter, List.mem_range'_1, and_assoc]
  · intro hr hex
    refine ⟨⟨retries, 1,
        (List.range' 400 200).filter
          (fun x => x ∉ ([400, 401, 403, 404, 422] : List Nat))⟩,
        ?_, rfl, rfl, ?_⟩
    · simp [GitHubWrapper.init_retry_config, GitHubWrapper.effective_exempt,
        hex, hr]
    · intro x
      simp [List.mem_filter, List.mem_range'_1, and_assoc]
  · intro hr hex
    refine ⟨⟨retries, 1,
        (List.range' 400 200).filter
          (fun x => x ∉ ([400, 401, 403, 404, 422] : List Nat))⟩,
        ?_, rfl, rfl, ?_⟩
    · simp [GitHubWrapper.init_retry_config, GitHubWrapper.effective_exempt,
        hex, hr]
    · intro x
      simp [List.mem_filter, List.mem_range'_1, and_assoc]

/-- Witness for `init_retry_config_spec`: retry count 0 yields no
configuration; retry count 2 with exempt set 500 yields total 2,
backoff factor 1, and a forcelist characterised by membership in
[400, 600) minus the exempt set; retry count 2 with an empty exempt
list yields the forcelist of the default exempt set. -/
theorem init_retry_config_spec_witness :
    GitHubWrapper.init_retry_config 0 (some [500]) = Option.none ∧
    (∃ cfg, GitHubWrapper.init_retry_config 2 (some [500]) = some cfg ∧
      cfg.total = 2 ∧ cfg.backoff_factor = 1 ∧
      ∀ x : Nat, x ∈ cfg.status_forcelist ↔
        (400 ≤ x ∧ x < 600 ∧ x ∉ ([500] : List Nat))) ∧
    (∃ cfg, GitHubWrapper.init_retry_config 2 (some []) = some cfg ∧
      cfg.total = 2 ∧ cfg.backoff_factor = 1 ∧
      ∀ x : Nat, x ∈ cfg.status_forcelist ↔
        (400 ≤ x ∧ x < 600 ∧
         x ∉ ([400, 401, 403, 404, 422] : List Nat))) :=
  ⟨(init_retry_config_spec 0 (some [500])).1 rfl,
   (init_retry_config_spec 2 (some [500])).2.1 [500] (by decide) rfl
     (by decide),
   (init_retry_config_spec 2 (some [])).2.2.2 (by decide) rfl⟩

/-- Counterexample for claim C7 as stated: when the caller supplies the
empty exempt list, the code's `or`-defaulting replaces it with the
default 400/401/403/404/422 set, so status 400 — which is in [400, 600)
and not in the caller-supplied exempt set — is nevertheless missing
from the retried-status set. -/
theorem init_retry_config_empty_exempt_counterexample :
    (400 ∉ ([] : List Nat)) ∧
    GitHubWrapper.init_retry_config 3 (some []) =
      GitHubWrapper.init_retry_config 3 (some [400, 401, 403, 404, 422]) ∧
    Option.map (fun cfg => cfg.status_forcelist.contains 400)
      (GitHubWrapper.init_retry_config 3 (some [])) = some false :=
  ⟨by decide, rfl, rfl⟩

/-- Claim C5 (amended): `Core.set_output` and `Core.export_variable`
leave the file system untouched when their target environment variable
(`GITHUB_OUTPUT`, `GITHUB_ENV`) is unset — or, per the amendment, set to
the empty string; when it is set to a nonempty path, each appends
exactly the newline-terminated record `name=value` to that file,
leaving the file's prior contents and every other file unchanged. -/
theorem set_output_export_variable_spec (env : Env) (fs : Core.Files)
    (name value : String) :
    (env "GITHUB_OUTPUT" = Option.none →
      Core.set_output env fs name value = fs) ∧
    (env "GITHUB_OUTPUT" = some "" →
      Core.set_output env fs name value = fs) ∧
    (∀ f, env "GITHUB_OUTPUT" = some f → f ≠ "" →
      Core.set_output env fs name value f =
        fs f ++ (name ++ "=" ++ value ++ "\n") ∧
      ∀ p, p ≠ f → Core.set_output env fs name value p = fs p) ∧
    (env "GITHUB_ENV" = Option.none →
      Core.export_variable env fs name value = fs) ∧
    (env "GITHUB_ENV" = some "" →
      Core.export_variable env fs name value = fs) ∧
    (∀ f, env "GITHUB_ENV" = some f → f ≠ "" →
      Core.export_variable env fs name value f =
        fs f ++ (name ++ "=" ++ value ++ "\n") ∧
      ∀ p, p ≠ f → Core.export_variable env fs name value p = fs p) := by
  refine ⟨?_, ?_, ?_, ?_, ?_, ?_⟩
  · intro h
    unfold Core.set_output
    rw [h]
  · intro h
    unfold Core.set_output
    rw [h]
    rfl
  · intro f h hne
    have hb : (f == "") = false := by
      simpa using hne
    constructor
    · unfold Core.set_output
      rw [h]
      simp [hb, Core.fileAppend]
    · intro p hp
      unfold Core.set_output
      rw [h]
      simp [hb, Core.fileAppend, hp]
  · intro h
    unfold Core.export_variable
    rw [h]
  · intro h
    unfold Core.export_variable
    rw [h]
    rfl
  · intro f h hne
    have hb : (f == "") = false := by
      simpa using hne
    constructor
    · unfold Core.export_variable
      rw [h]
      simp [hb, Core.fileAppend]
    · intro p hp
      unfold Core.export_variable
      rw [h]
      simp [hb, Core.fileAppend, hp]

/-- Witness for `set_output_export_variable_spec`: with `GITHUB_OUTPUT`
at `/out.txt` and `GITHUB_ENV` at `/env.txt` over a file system whose
files hold one prior line, `set_output` appends its record to
`/out.txt` without touching `/env.txt`, `export_variable` appends its
record to `/env.txt`, and in the empty environment both functions leave
the file system unchanged. -/
theorem set_output_export_variable_spec_witness :
    Core.set_output envOut fsPrior "k" "v" "/out.txt" =
      "prior=1\n" ++ ("k" ++ "=" ++ "v" ++ "\n") ∧
    Core.set_output envOut fsPrior "k" "v" "/env.txt" = "prior=1\n" ∧
    Core.export_variable envOut fsPrior "k" "v" "/env.txt" =
      "prior=1\n" ++ ("k" ++ "=" ++ "v" ++ "\n") ∧
    Core.set_output envEmpty fsPrior "k" "v" = fsPrior ∧
    Core.export_variable envEmpty fsPrior "k" "v" = fsPrior :=
  ⟨((set_output_export_variable_spec envOut fsPrior "k" "v").2.2.1
      "/out.txt" rfl (by decide)).1,
   ((set_output_export_variable_spec envOut fsPrior "k" "v").2.2.1
      "/out.txt" rfl (by decide)).2 "/env.txt" (by decide),
   ((set_output_export_variable_spec envOut fsPrior "k" "v").2.2.2.2.2
      "/env.txt" rfl (by decide)).1,
   (set_output_export_variable_spec envEmpty fsPrior "k" "v").1 rfl,
   (set_output_export_variable_spec envEmpty fsPrior "k" "v").2.2.2.1 rfl⟩

/-- Counterexample for claim C5 as stated: with `GITHUB_OUTPUT` set (to
the empty string), `set_output` writes nothing at all — the file named
by the variable keeps its contents instead of gaining a `name=value`
line — because the code tests the variable's truthiness, not its
presence. -/
theorem set_output_empty_env_counterexample :
    envOutEmpty "GITHUB_OUTPUT" = some "" ∧
    Core.set_output envOutEmpty fs0 "a" "b" = fs0 ∧
    Core.set_output envOutEmpty fs0 "a" "b" "" ≠
      fs0 "" ++ ("a" ++ "=" ++ "b" ++ "\n") :=
  ⟨rfl, rfl, by decide⟩

/-- Claim C1: `run_script` executes the script against a namespace
binding `github`, `context`, `core`, `os`, `sys` and `json`, and
returns the value the script bound to `__result__` — `None` when the
script never set it; in particular the script `__result__ = 1 + 1`
yields `2`. -/
theorem run_script_contract (g c co : PyVal)
    (script : Namespace → Except String Namespace) :
    dictLookup (exec_globals g c co) "github" = some g ∧
    dictLookup (exec_globals g c co) "context" = some c ∧
    dictLookup (exec_globals g c co) "core" = some co ∧
    dictLookup (exec_globals g c co) "os" = some (PyVal.obj "module os") ∧
    dictLookup (exec_globals g c co) "sys" = some (PyVal.obj "module sys") ∧
    dictLookup (exec_globals g c co) "json" =
      some (PyVal.obj "module json") ∧
    (∀ ns v, script (exec_globals g c co) = Except.ok ns →
      dictLookup ns "__result__" = some v →
      run_script script g c co = Except.ok v) ∧
    (∀ ns, script (exec_globals g c co) = Except.ok ns →
      dictLookup ns "__result__" = Option.none →
      run_script script g c co = Except.ok PyVal.none) ∧
    run_script (execStmts [Stmt.assign "__result__"
        (Expr.add (Expr.lit 1) (Expr.lit 1))]) g c co =
      Except.ok (PyVal.int 2) := by
  refine ⟨rfl, rfl, rfl, rfl, rfl, rfl, ?_, ?_, rfl⟩
  · intro ns v hs hv
    simp [run_script, hs, hv, Bind.bind, Except.bind]
  · intro ns hs hv
    simp [run_script, hs, hv, Bind.bind, Except.bind]

/-- Witness for `run_script_contract`: the empty script leaves
`__result__` unset, so `run_script` returns `None`. -/
theorem run_script_contract_witness :
    run_script (execStmts []) (PyVal.obj "G") (PyVal.obj "C")
      (PyVal.obj "K") = Except.ok PyVal.none :=
  (run_script_contract (PyVal.obj "G") (PyVal.obj "C") (PyVal.obj "K")
      (execStmts [])).2.2.2.2.2.2.2.1
    (exec_globals (PyVal.obj "G") (PyVal.obj "C") (PyVal.obj "K")) rfl rfl

/-- The first operand of the `or` chain wins when the payload's issue
dict carries a truthy (nonzero) number. -/
theorem issueNumber_first (kvs d : List (String × PyVal)) (n : Int)
    (h1 : dictLookup kvs "issue" = some (PyVal.dict d))
    (h2 : dictLookup d "number" = some (PyVal.int n)) (hn : n ≠ 0) :
    issueNumber (PyVal.dict kvs) = Except.ok (PyVal.int n) := by
  have ht : truthy (PyVal.int n) = true := by simpa [truthy] using hn
  simp [issueNumber, pyDictGetD, h1, h2, ht, Bind.bind, Except.bind]

/-- The second operand wins when the issue number is falsy and the
pull-request dict carries a truthy (nonzero) number. -/
theorem issueNumber_second (kvs : List (String × PyVal)) (iv a : PyVal)
    (d : List (String × PyVal)) (n : Int)
    (h1 : pyDictGetD (PyVal.dict kvs) "issue" (PyVal.dict []) =
      Except.ok iv)
    (h2 : pyDictGetD iv "number" PyVal.none = Except.ok a)
    (hta : truthy a = false)
    (h3 : dictLookup kvs "pull_request" = some (PyVal.dict d))
    (h4 : dictLookup d "number" = some (PyVal.int n)) (hn : n ≠ 0) :
    issueNumber (PyVal.dict kvs) = Except.ok (PyVal.int n) := by
  have htb : truthy (PyVal.int n) = true := by simpa [truthy] using hn
  unfold issueNumber
  rw [h1]
  simp only [Bind.bind, Except.bind]
  rw [h2]
  simp only [Bind.bind, Except.bind]
  rw [hta]
  simp [pyDictGetD, h3, h4, htb, Bind.bind, Except.bind]

/-- When both the issue and pull-request numbers are falsy, the chain
falls back to the payload's top-level number with default 0. -/
theorem issueNumber_fallback (kvs : List (String × PyVal))
    (iv a pv b : PyVal)
    (h1 : pyDictGetD (PyVal.dict kvs) "issue" (PyVal.dict []) =
      Except.ok iv)
    (h2 : pyDictGetD iv "number" PyVal.none = Except.ok a)
    (hta : truthy a = false)
    (h3 : pyDictGetD (PyVal.dict kvs) "pull_request" (PyVal.dict []) =
      Except.ok pv)
    (h4 : pyDictGetD pv "number" PyVal.none = Except.ok b)
    (htb : truthy b = false) :
    issueNumber (PyVal.dict kvs) =
      Except.ok ((dictLookup kvs "number").getD (PyVal.int 0)) := by
  unfold issueNumber
  rw [h1]
  simp only [Bind.bind, Except.bind]
  rw [h2]
  simp only [Bind.bind, Except.bind]
  rw [hta]
  simp only [Bool.false_eq_true, if_false]
  rw [h3]
  simp only [Bind.bind, Except.bind]
  rw [h4]
  simp only [Bind.bind, Except.bind]
  rw [htb]
  simp [pyDictGetD]

/-- `Context.issue` packages the repo identity with whatever number the
`or` chain produced. -/
theorem Context_issue_lift (env : Env) (ctx : Context) (rid : RepoId)
    (x : PyVal) (hrepo : Context.repo env = Except.ok rid)
    (hnum : issueNumber ctx.payload = Except.ok x) :
    Context.issue env ctx = Except.ok ⟨rid.owner, rid.repo, x⟩ := by
  simp [Context.issue, hrepo, hnum, Bind.bind, Except.bind]

/-- Claim C2 (amended): for every payload whose issue number is a
truthy (nonzero) integer, the number field of `Context.issue` equals
that integer, ignoring any pull-request or top-level number present in
the same payload; the resolution priority — restricted by the
truthiness semantics of the code's `or` chain — is a truthy
issue number, then a truthy pull-request number, then the top-level
number, then 0. -/
theorem Context_issue_truthy_priority (env : Env) (ctx : Context)
    (kvs : List (String × PyVal)) (rid : RepoId)
    (hrepo : Context.repo env = Except.ok rid)
    (hp : ctx.payload = PyVal.dict kvs) :
    (∀ d n, dictLookup kvs "issue" = some (PyVal.dict d) →
      dictLookup d "number" = some (PyVal.int n) → n ≠ 0 →
      Context.issue env ctx =
        Except.ok ⟨rid.owner, rid.repo, PyVal.int n⟩) ∧
    (∀ iv a d n,
      pyDictGetD (PyVal.dict kvs) "issue" (PyVal.dict []) = Except.ok iv →
      pyDictGetD iv "number" PyVal.none = Except.ok a →
      truthy a = false →
      dictLookup kvs "pull_request" = some (PyVal.dict d) →
      dictLookup d "number" = some (PyVal.int n) → n ≠ 0 →
      Context.issue env ctx =
        Except.ok ⟨rid.owner, rid.repo, PyVal.int n⟩) ∧
    (∀ iv a pv b,
      pyDictGetD (PyVal.dict kvs) "issue" (PyVal.dict []) = Except.ok iv →
      pyDictGetD iv "number" PyVal.none = Except.ok a →
      truthy a = false →
      pyDictGetD (PyVal.dict kvs) "pull_request" (PyVal.dict []) =
        Except.ok pv →
      pyDictGetD pv "number" PyVal.none = Except.ok b →
      truthy b = false →
      Context.issue env ctx = Except.ok ⟨rid.owner, rid.repo,
        (dictLookup kvs "number").getD (PyVal.int 0)⟩) := by
  refine ⟨?_, ?_, ?_⟩
  · intro d n h1 h2 hn
    apply Context_issue_lift env ctx rid _ hrepo
    rw [hp]
    exact issueNumber_first kvs d n h1 h2 hn
  · intro iv a d n h1 h2 hta h3 h4 hn
    apply Context_issue_lift env ctx rid _ hrepo
    rw [hp]
    exact issueNumber_second kvs iv a d n h1 h2 hta h3 h4 hn
  · intro iv a pv b h1 h2 hta h3 h4 htb
    apply Context_issue_lift env ctx rid _ hrepo
    rw [hp]
    exact issueNumber_fallback kvs iv a pv b h1 h2 hta h3 h4 htb

/-- Witness for `Context_issue_truthy_priority`: a payload holding
issue number 42 next to pull-request number 5 and top-level number 9
resolves to 42. -/
theorem Context_issue_truthy_priority_witness :
    Context.issue envEmpty ctxW = Except.ok ⟨"", "", PyVal.int 42⟩ :=
  (Context_issue_truthy_priority envEmpty ctxW
      [("issue", PyVal.dict [("number", PyVal.int 42)]),
       ("pull_request", PyVal.dict [("number", PyVal.int 5)]),
       ("number", PyVal.int 9)] ⟨"", ""⟩ rfl rfl).1
    [("number", PyVal.int 42)] 42 rfl rfl (by decide)

/-- Counterexample for claim C2 as stated: `payload0` contains an
issue number — the integer 0 — yet `Context.issue` resolves the number
field to the pull-request number 5, because Python's `or` treats the
present-but-zero issue number as falsy and falls through. -/
theorem Context_issue_zero_counterexample :
    ctx0.payload = PyVal.dict
      [("issue", PyVal.dict [("number", PyVal.int 0)]),
       ("pull_request", PyVal.dict [("number", PyVal.int 5)])] ∧
    Context.issue envEmpty ctx0 = Except.ok ⟨"", "", PyVal.int 5⟩ ∧
    PyVal.int 5 ≠ PyVal.int 0 := by
  refine ⟨rfl, rfl, ?_⟩
  intro h
  injection h with h'
  exact absurd h' (by decide)

